import Mathlib

/-!
Verification of the streaming aggregation, anomaly-classification and
broadcast pipeline of the edge-LLM IoT repository.

Embedding conventions:
* Python floats are modelled as rationals; the classification and
  aggregation logic only compares, adds and divides values.
* Timestamps are modelled by an inductive field: an ISO-8601 string is
  represented by the instant (seconds since epoch) it denotes; the integer
  millisecond timestamps produced by src/components/shared/sensor_utils.py
  and a missing field are separate constructors, on which
  datetime.fromisoformat raises, i.e. parsing returns none.
* Python dicts keyed by sensor type are association lists preserving
  insertion order, matching iteration order of Python dicts.
* collections.deque with maxlen is a list on which append drops the oldest
  entries beyond the capacity.
* ZeroDivisionError and KeyError are modelled with an explicit error type;
  bus and model I/O (publishing, LLM generation, logging) is external to
  the verified core and is not modelled.
-/

/-- Timestamp field of a stored reading, as found in the JSON payload. -/
inductive TsField where
  | iso (t : ℚ)
  | intMs (ms : ℤ)
  | missing
deriving DecidableEq

/-- Model of datetime.fromisoformat(data.get('timestamp', '')): succeeds on an
ISO-8601 string, raises (returns none) on an integer payload or on the empty
string used as the default for a missing field. -/
def parseTimestamp : TsField → Option ℚ
  | .iso t => some t
  | .intMs _ => none
  | .missing => none

/-- Canonical sensor reading payload; each field is optional because the code
accesses them with dict.get and a missing field is representable. -/
structure Reading where
  sensor_id : Option String
  type : Option String
  value : Option ℚ
  unit : Option String
  timestamp : TsField
  is_anomaly : Option Bool
deriving DecidableEq

/-- Per-sensor-type threshold configuration entry (config['sensors'][type]). -/
structure SensorCfg where
  min : Option ℚ
  max : Option ℚ
deriving DecidableEq

/-- Python exceptions that can arise inside the embedded core. -/
inductive PyErr where
  | keyError
  | zeroDivision
  | valueError
deriving DecidableEq

/-- Tier tail of llm_inference.calculate_severity: the deviation ratio is
mapped to "critical" / "warning" / "info". -/
def severityOfDeviation (deviation : ℚ) : Except PyErr String :=
  if deviation > 0.5 then .ok "critical"
  else if deviation > 0.2 then .ok "warning"
  else .ok "info"

/-- Embedding of LLMInferenceEngine.calculate_severity
(src/components/llm-inference/llm_inference.py lines 371-391).
sensor_data['value'] and sensor_data['type'] are direct subscripts, hence
KeyError when missing; the divisions by max_val and min_val raise
ZeroDivisionError when the divisor is zero. -/
def calculate_severity (sensors : List (String × SensorCfg)) (sensor_data : Reading) :
    Except PyErr String :=
  match sensor_data.value, sensor_data.type with
  | none, _ => .error .keyError
  | some _, none => .error .keyError
  | some value, some sensor_type =>
    let config := (sensors.lookup sensor_type).getD ⟨none, none⟩
    let min_val := config.min.getD 0
    let max_val := config.max.getD 100
    if value > max_val then
      if max_val = 0 then .error .zeroDivision
      else severityOfDeviation ((value - max_val) / max_val)
    else if value < min_val then
      if min_val = 0 then .error .zeroDivision
      else severityOfDeviation ((min_val - value) / min_val)
    else severityOfDeviation 0

/-- Default sensors section of the configuration
(llm_inference.py main / sensor_simulator.py main, lines 126-130). -/
def defaultSensors : List (String × SensorCfg) :=
  [("temperature", ⟨some 20, some 80⟩),
   ("pressure", ⟨some 100, some 200⟩),
   ("vibration", ⟨some 0, some 10⟩)]

/-- Effective minimum threshold used by calculate_severity for a sensor type:
config.get('min', 0) after config.get('sensors', ...).get(sensor_type, ...). -/
def thresholdMin (sensors : List (String × SensorCfg)) (ty : String) : ℚ :=
  (((sensors.lookup ty).getD ⟨none, none⟩).min).getD 0

/-- Effective maximum threshold used by calculate_severity, defaulting to 100. -/
def thresholdMax (sensors : List (String × SensorCfg)) (ty : String) : ℚ :=
  (((sensors.lookup ty).getD ⟨none, none⟩).max).getD 100

/-- Modelled from the spec: the classifier tiering exactly as the claim words
it (deviation ratio against the configured range with cutoffs 0.2 and 0.5),
with the in-range / low-deviation tier carrying the string "info" that the
code actually returns where the claim says "normal". -/
def claimedSeverity (minV maxV value : ℚ) : String :=
  if minV ≤ value ∧ value ≤ maxV then "info"
  else if value > maxV then
    let d := (value - maxV) / maxV
    if d > 0.5 then "critical" else if 0.2 < d ∧ d ≤ 0.5 then "warning" else "info"
  else
    let d := (minV - value) / minV
    if d > 0.5 then "critical" else if 0.2 < d ∧ d ≤ 0.5 then "warning" else "info"

/-- Reading literal with the given sensor type and value and all other fields
present and well formed. -/
def mkReading (ty : String) (v : ℚ) : Reading :=
  ⟨some "sensor_01", some ty, some v, some "", .iso 0, some false⟩

/-- Append on a collections.deque with the given maxlen: the combined list is
truncated from the front down to the capacity. -/
def dequeAppend (maxlen : ℕ) (buf : List α) (x : α) : List α :=
  let b := buf ++ [x]
  b.drop (b.length - maxlen)

/-- Update-or-insert on an insertion-ordered association list: the first entry
with the given key is rewritten with f, and a missing key appends f ini at the
end, mirroring the if-absent-initialize-then-mutate pattern of the source. -/
def applyAssoc {β : Type} : List (String × β) → String → (β → β) → β → List (String × β)
  | [], ty, f, ini => [(ty, f ini)]
  | (k, s) :: rest, ty, f, ini =>
    if k = ty then (k, f s) :: rest else (k, s) :: applyAssoc rest ty f ini

/-- Rounding of a rational to an integer, ties to even, as Python round. -/
def roundHalfEven (x : ℚ) : ℤ :=
  let n := Int.floor x
  let frac := x - n
  if frac < 0.5 then n
  else if 0.5 < frac then n + 1
  else if n % 2 = 0 then n else n + 1

/-- Model of Python round(x, 2). -/
def round2 (x : ℚ) : ℚ := (roundHalfEven (x * 100) : ℚ) / 100

/-- Per-sensor-type accumulator of ChatBotServer.get_sensor_summary. The
float('inf') and float('-inf') sentinels that initialize min_value and
max_value are modelled by none. -/
structure TypeSummary where
  count : ℕ
  avg_value : ℚ
  min_value : Option ℚ
  max_value : Option ℚ
  unit : String
deriving DecidableEq

/-- Initial per-type summary: count 0, sum 0, infinite sentinels, and the unit
taken from the first reading of that type. -/
def initSummary (u : String) : TypeSummary := ⟨0, 0, none, none, u⟩

/-- One reading folded into a per-type summary: count, running sum, min, max. -/
def addValue (s : TypeSummary) (r : Reading) : TypeSummary :=
  let v := r.value.getD 0
  { s with
    count := s.count + 1
    avg_value := s.avg_value + v
    min_value := some (match s.min_value with | none => v | some m => min m v)
    max_value := some (match s.max_value with | none => v | some m => max m v) }

/-- Membership test of the retention filter: the parsed timestamp must satisfy
data_time >= now - duration; unparseable timestamps are skipped (except:
continue in the source). -/
def inWindow (durationSec : ℚ) (now : ℚ) (r : Reading) : Bool :=
  match parseTimestamp r.timestamp with
  | some t => decide (now - durationSec ≤ t)
  | none => false

/-- Loop body of get_sensor_summary: one retained reading folded into the
per-type map and the running anomaly count. -/
def summarizeStep (acc : List (String × TypeSummary) × ℕ) (r : Reading) :
    List (String × TypeSummary) × ℕ :=
  let sensor_type := r.type.getD "unknown"
  (applyAssoc acc.1 sensor_type (fun s => addValue s r) (initSummary (r.unit.getD "")),
   if r.is_anomaly.getD false then acc.2 + 1 else acc.2)

/-- Grouping loop of get_sensor_summary over the retained readings, returning
the per-type summaries in insertion order together with the anomaly count. -/
def summarizeFold (recent : List Reading) : List (String × TypeSummary) × ℕ :=
  recent.foldl summarizeStep ([], 0)

/-- Average pass of get_sensor_summary: each per-type running sum is divided by
its count and rounded to two decimals, guarded by count > 0. -/
def finalizeAvg (m : List (String × TypeSummary)) : List (String × TypeSummary) :=
  m.map (fun p =>
    (p.1, if 0 < p.2.count
          then { p.2 with avg_value := round2 (p.2.avg_value / (p.2.count : ℚ)) }
          else p.2))

/-- Result of the sensor-summary endpoint: the two early-return message
objects, or the computed summary. -/
inductive SummaryResult where
  | noData
  | noRecent
  | summary (sensor_summary : List (String × TypeSummary)) (anomaly_count : ℕ)
      (total_readings : ℕ)
deriving DecidableEq

/-- Embedding of ChatBotServer get_sensor_summary
(src/components/chatbot-ui/chatbot_server.py lines 77-133): an empty buffer
and a buffer with nothing inside the one-hour window return distinct message
results; otherwise the retained readings are grouped and averaged. -/
def get_sensor_summary (sensor_data : List Reading) (now : ℚ) : SummaryResult :=
  if sensor_data = [] then .noData
  else
    let recent_data := sensor_data.filter (inWindow 3600 now)
    if recent_data = [] then .noRecent
    else
      let p := summarizeFold recent_data
      .summary (finalizeAvg p.1) p.2 recent_data.length

/-- Discriminator: true only on an actual computed summary, false on the two
message results. -/
def isWindowSummary : SummaryResult → Bool
  | .summary _ _ _ => true
  | _ => false

/-- Per-type entry of LLMInferenceEngine.get_recent_sensor_context. -/
structure CtxEntry where
  latest_value : ℚ
  unit : String
  readings_count : ℕ
  anomaly_count : ℕ
deriving DecidableEq

/-- Initial context entry (latest_value 0, empty unit, zero counters). -/
def initCtxEntry : CtxEntry := ⟨0, "", 0, 0⟩

/-- One reading folded into a context entry: latest_value and unit are
overwritten, readings_count always incremented, anomaly_count incremented
when the reading carries is_anomaly. -/
def ctxUpdate (e : CtxEntry) (r : Reading) : CtxEntry :=
  let e1 := { e with
    latest_value := r.value.getD 0
    unit := r.unit.getD ""
    readings_count := e.readings_count + 1 }
  if r.is_anomaly.getD false then { e1 with anomaly_count := e1.anomaly_count + 1 } else e1

/-- Context snapshot of the inference engine: the no-data status object, or
the per-type map with totals and the utcnow timestamp embedded in the result. -/
inductive LlmContext where
  | noData
  | ctx (sensor_summary : List (String × CtxEntry)) (total_anomalies : ℕ)
      (total_readings : ℕ) (timestamp : ℚ)
deriving DecidableEq

/-- Embedding of LLMInferenceEngine.get_recent_sensor_context
(src/components/llm-inference/llm_inference.py lines 151-186): the last 20
buffered readings are grouped per type; the result carries
datetime.utcnow().isoformat(), modelled by the now parameter. -/
def get_recent_sensor_context (sensor_buffer : List Reading) (now : ℚ) : LlmContext :=
  if sensor_buffer = [] then .noData
  else
    let recent_readings := sensor_buffer.drop (sensor_buffer.length - 20)
    let p := recent_readings.foldl
      (fun acc r =>
        let sensor_type := r.type.getD "unknown"
        (applyAssoc acc.1 sensor_type (fun e => ctxUpdate e r) initCtxEntry,
         if r.is_anomaly.getD false then acc.2 + 1 else acc.2))
      ([], 0)
    .ctx p.1 p.2 recent_readings.length now

/-- Snapshot with the embedded clock reading erased, to compare two snapshots
up to their generation time. -/
def stripTimestamp : LlmContext → LlmContext
  | .noData => .noData
  | .ctx m a t _ => .ctx m a t 0

/-- Entry appended per reading by ChatBotServer.get_sensor_context_for_llm;
value and unit are dict.get without default, hence optional. -/
structure ValEntry where
  value : Option ℚ
  unit : Option String
  is_anomaly : Bool
  timestamp : TsField
deriving DecidableEq

/-- Projection of a reading to the entry stored in the 30-minute context. -/
def valEntryOf (r : Reading) : ValEntry :=
  ⟨r.value, r.unit, r.is_anomaly.getD false, r.timestamp⟩

/-- Context snapshot of the chat front end. -/
inductive ChatContext where
  | noData
  | ctx (sensor_data_summary : List (String × List ValEntry)) (total_anomalies : ℕ)
      (total_readings : ℕ) (latest_llm_analysis : List String)
deriving DecidableEq

/-- Embedding of ChatBotServer.get_sensor_context_for_llm
(src/components/chatbot-ui/chatbot_server.py lines 199-200): readings of the
last 30 minutes grouped per type, plus the last five analysis results. -/
def get_sensor_context_for_llm (sensor_data : List Reading) (analysis_results : List String)
    (now : ℚ) : ChatContext :=
  let recent_data := sensor_data.filter (inWindow 1800 now)
  if recent_data = [] then .noData
  else
    let p := recent_data.foldl
      (fun acc r =>
        let sensor_type := r.type.getD "unknown"
        (applyAssoc acc.1 sensor_type (fun l => l ++ [valEntryOf r]) [],
         if r.is_anomaly.getD false then acc.2 + 1 else acc.2))
      ([], 0)
    let latest_analysis := analysis_results.drop (analysis_results.length - 5)
    .ctx p.1 p.2 recent_data.length latest_analysis

/-- WebSocket listener of the broadcast registry: an identity plus whether a
delivery attempt to it succeeds (send_text raising models a dead socket). -/
structure Listener where
  id : ℕ
  ok : Bool
deriving DecidableEq

/-- Loop body of ChatBotServer.broadcast_message: the first component collects
the listeners that were delivered to, the second threads the live registry,
from which a listener is removed (if still present) on failed delivery. -/
def broadcastRun : List Listener → List Listener → List Listener × List Listener
  | [], live => ([], live)
  | c :: rest, live =>
    if c.ok then
      let p := broadcastRun rest live
      (c :: p.1, p.2)
    else
      broadcastRun rest (if c ∈ live then live.erase c else live)

/-- Embedding of ChatBotServer.broadcast_message
(src/components/chatbot-ui/chatbot_server.py lines 177-178): iterates over a
copy of active_connections and returns (delivered listeners, registry after). -/
def broadcast_message (active_connections : List Listener) :
    List Listener × List Listener :=
  if active_connections = [] then ([], active_connections)
  else broadcastRun active_connections active_connections

/-- Inbound bus message as seen by a subscription handler: either the JSON
payload fails to parse, or it is an object read into a Reading. -/
inductive Payload where
  | invalidJson
  | obj (r : Reading)
deriving DecidableEq

/-- Embedding of LLMInferenceEngine.process_anomaly on its exception behaviour:
sensor_data['sensor_id'] raises KeyError when missing, and the severity
computation can raise from calculate_severity; the LLM analysis and the
publication of the result are external I/O and not modelled. -/
def process_anomaly (sensors : List (String × SensorCfg)) (sensor_data : Reading) :
    Except PyErr String :=
  match sensor_data.sensor_id with
  | none => .error .keyError
  | some _ => calculate_severity sensors sensor_data

/-- Body of LLMInferenceEngine.handle_sensor_message for a sensor-topic
message, before the outer try/except: the payload is appended to the buffer
unconditionally, then anomaly processing may raise; the returned option is
the exception reaching the outer handler, with buffer mutations retained. -/
def handle_inner (sensors : List (String × SensorCfg)) (sensor_buffer : List Reading)
    (msg : Payload) : List Reading × Option PyErr :=
  match msg with
  | .invalidJson => (sensor_buffer, some .valueError)
  | .obj payload =>
    let buf := dequeAppend 1000 sensor_buffer payload
    if payload.is_anomaly.getD false then
      match process_anomaly sensors payload with
      | .ok _ => (buf, none)
      | .error e => (buf, some e)
    else (buf, none)

/-- Embedding of LLMInferenceEngine.handle_sensor_message
(src/components/llm-inference/llm_inference.py lines 91-109): the outer
try/except swallows every exception (logging it), so the handler always
returns the mutated buffer and nothing propagates to the bus adapter. -/
def handle_sensor_message (sensors : List (String × SensorCfg))
    (sensor_buffer : List Reading) (msg : Payload) : List Reading :=
  (handle_inner sensors sensor_buffer msg).1

/-- Timestamp produced by SensorDataGenerator.generate_reading
(src/components/shared/sensor_utils.py line 57): time.time_ns() // 1_000_000,
an integer count of milliseconds, not an ISO-8601 string. -/
def generate_reading_timestamp (time_ns : ℤ) : TsField :=
  .intMs (Int.fdiv time_ns 1000000)

unseal Rat.add Rat.sub Rat.mul Rat.inv Rat.ofScientific in
example : calculate_severity defaultSensors (mkReading "temperature" 80) = .ok "info" ∧
    calculate_severity defaultSensors (mkReading "temperature" 120) = .ok "warning" ∧
    calculate_severity defaultSensors (mkReading "temperature" 121) = .ok "critical" ∧
    calculate_severity defaultSensors (mkReading "temperature" 96) = .ok "info" ∧
    calculate_severity defaultSensors (mkReading "temperature" 97) = .ok "warning" ∧
    calculate_severity defaultSensors (mkReading "temperature" 10) = .ok "warning" ∧
    calculate_severity defaultSensors (mkReading "temperature" 9) = .ok "critical" ∧
    calculate_severity defaultSensors (mkReading "vibration" (-1)) = .error .zeroDivision ∧
    calculate_severity [] (mkReading "humidity" 200) = .ok "critical" := by
  refine ⟨?_, ?_, ?_, ?_, ?_, ?_, ?_, ?_, ?_⟩ <;> rfl

unseal Rat.add Rat.sub Rat.mul Rat.inv Rat.ofScientific in
example : get_sensor_summary [] 0 = .noData ∧
    get_sensor_summary [mkReading "temperature" 22] 5 =
      .summary [("temperature", ⟨1, 22, some 22, some 22, ""⟩)] 0 1 ∧
    get_sensor_summary [mkReading "temperature" 22] 7200 = .noRecent := by
  refine ⟨rfl, ?_, ?_⟩ <;> rfl

unseal Rat.add Rat.sub Rat.mul Rat.inv Rat.ofScientific in
example : get_recent_sensor_context [mkReading "temperature" 22] 0 =
      .ctx [("temperature", ⟨22, "", 1, 0⟩)] 0 1 0 ∧
    get_recent_sensor_context
      [⟨some "s1", some "pressure", some 150, some "kPa", .iso 0, some true⟩] 0 =
      .ctx [("pressure", ⟨150, "kPa", 1, 1⟩)] 1 1 0 ∧
    get_recent_sensor_context [mkReading "temperature" 22] 0 ≠
    get_recent_sensor_context [mkReading "temperature" 22] 1 := by
  refine ⟨by rfl, by rfl, by decide⟩

example : broadcast_message [⟨1, true⟩, ⟨2, false⟩, ⟨3, true⟩] =
    ([⟨1, true⟩, ⟨3, true⟩], [⟨1, true⟩, ⟨3, true⟩]) := by decide

example : handle_sensor_message defaultSensors []
    (.obj ⟨some "s1", some "temperature", none, some "C", .iso 5, some false⟩) =
    [⟨some "s1", some "temperature", none, some "C", .iso 5, some false⟩] := rfl

example : parseTimestamp (generate_reading_timestamp 1760000000000000000) = none := rfl

/-- Delivery side of the broadcast loop: every listener of the snapshot copy
whose send succeeds receives the message, independently of the live registry. -/
theorem broadcastRun_fst : ∀ (cs live : List Listener),
    (broadcastRun cs live).1 = cs.filter (fun c => c.ok)
  | [], live => by simp [broadcastRun]
  | c :: rest, live => by
    by_cases hc : c.ok
    · simp [broadcastRun, hc, broadcastRun_fst rest live]
    · simp [broadcastRun, hc, broadcastRun_fst rest (if c ∈ live then live.erase c else live)]

/-- Registry side of the broadcast loop: from a duplicate-free live registry,
exactly the listeners that appear in the iterated snapshot with a failing send
are removed. -/
theorem broadcastRun_snd : ∀ (cs live : List Listener), live.Nodup →
    (broadcastRun cs live).2 = live.filter (fun x => x.ok || decide (x ∉ cs))
  | [], live, _ => by simp [broadcastRun]
  | c :: rest, live, h => by
    by_cases hc : c.ok
    · rw [show broadcastRun (c :: rest) live = (c :: (broadcastRun rest live).1,
          (broadcastRun rest live).2) from by simp [broadcastRun, hc]]
      rw [broadcastRun_snd rest live h]
      apply List.filter_congr
      intro x hx
      by_cases hxc : x = c
      · subst hxc; simp [hc]
      · have hd : decide (x ∉ rest) = decide (x ∉ c :: rest) := by
          rw [decide_eq_decide]; simp [List.mem_cons, hxc]
        rw [hd]
    · rw [show broadcastRun (c :: rest) live =
          broadcastRun rest (if c ∈ live then live.erase c else live) from by
            simp [broadcastRun, hc]]
      have hlive : (if c ∈ live then live.erase c else live) = live.erase c := by
        by_cases hm : c ∈ live
        · rw [if_pos hm]
        · rw [if_neg hm, List.erase_of_not_mem hm]
      rw [hlive, broadcastRun_snd rest (live.erase c) (h.erase c),
          h.erase_eq_filter c, List.filter_filter]
      apply List.filter_congr
      intro x hx
      by_cases hxc : x = c
      · subst hxc
        simp [hc, List.mem_cons]
      · simp [hxc, List.mem_cons]

/-- C4: a publish iterates a snapshot copy of the listeners, delivers the
message to every listener whose send succeeds, removes the failed listeners
from the live registry, and, being a total function, raises nothing. -/
theorem broadcast_delivers_and_prunes (conns : List Listener) (h : conns.Nodup) :
    broadcast_message conns =
      (conns.filter (fun c => c.ok), conns.filter (fun c => c.ok)) := by
  unfold broadcast_message
  by_cases hc : conns = []
  · subst hc; simp
  · rw [if_neg hc]
    refine Prod.ext ?_ ?_
    · rw [broadcastRun_fst]
    · rw [broadcastRun_snd conns conns h]
      apply List.filter_congr
      intro x hx
      simp [hx]

/-- Witness for C4: three listeners, the second of which fails on delivery;
the message reaches listeners 1 and 3 and listener 2 is pruned. -/
theorem broadcast_delivers_and_prunes_witness :
    ([⟨1, true⟩, ⟨2, false⟩, ⟨3, true⟩] : List Listener).Nodup ∧
    broadcast_message [⟨1, true⟩, ⟨2, false⟩, ⟨3, true⟩] =
      ([⟨1, true⟩, ⟨3, true⟩], [⟨1, true⟩, ⟨3, true⟩]) :=
  ⟨by decide, by rw [broadcast_delivers_and_prunes _ (by decide)]; rfl⟩

/-- Length of a deque append: the combined length, clipped at the capacity. -/
theorem dequeAppend_length (m : ℕ) (buf : List α) (x : α) :
    (dequeAppend m buf x).length = min (buf.length + 1) m := by
  simp [dequeAppend]; omega

/-- Deque append only drops entries from the front of the combined list. -/
theorem dequeAppend_suffix (m : ℕ) (buf : List α) (x : α) :
    List.IsSuffix (dequeAppend m buf x) (buf ++ [x]) :=
  List.drop_suffix _ _

/-- Appending the same list on the right preserves the suffix relation. -/
theorem isSuffix_append_right {s t : List α} (u : List α) (h : List.IsSuffix s t) :
    List.IsSuffix (s ++ u) (t ++ u) := by
  obtain ⟨w, rfl⟩ := h
  exact ⟨w, (List.append_assoc _ _ _).symm⟩

/-- C6: starting from a buffer within its capacity of 1000, any sequence of
deque appends leaves at most 1000 entries, and the surviving entries are a
suffix of the full append stream, i.e. only the oldest entries are evicted;
the append itself is a total function and never blocks the producer. -/
theorem buffer_capacity_bounded :
    ∀ (rs : List Reading) (buf : List Reading), buf.length ≤ 1000 →
      (rs.foldl (dequeAppend 1000) buf).length ≤ 1000 ∧
      List.IsSuffix (rs.foldl (dequeAppend 1000) buf) (buf ++ rs)
  | [], buf, h => ⟨by simpa using h, by simp⟩
  | x :: rs, buf, h => by
    have h1 : (dequeAppend 1000 buf x).length ≤ 1000 := by
      rw [dequeAppend_length]; omega
    obtain ⟨hl, hs⟩ := buffer_capacity_bounded rs (dequeAppend 1000 buf x) h1
    refine ⟨by simpa using hl, ?_⟩
    have hstep : List.IsSuffix ((dequeAppend 1000 buf x) ++ rs) ((buf ++ [x]) ++ rs) :=
      isSuffix_append_right rs (dequeAppend_suffix 1000 buf x)
    have heq : (buf ++ [x]) ++ rs = buf ++ x :: rs := by simp
    simp only [List.foldl_cons]
    exact heq ▸ hs.trans hstep

/-- Witness for C6: two readings folded into an empty buffer stay within the
capacity and form a suffix of the append stream. -/
theorem buffer_capacity_bounded_witness :
    (([] : List Reading).length ≤ 1000) ∧
    (([mkReading "temperature" 22, mkReading "pressure" 150].foldl
        (dequeAppend 1000) []).length ≤ 1000 ∧
     List.IsSuffix ([mkReading "temperature" 22, mkReading "pressure" 150].foldl
        (dequeAppend 1000) [])
        ([] ++ [mkReading "temperature" 22, mkReading "pressure" 150])) :=
  ⟨by decide, buffer_capacity_bounded _ [] (by decide)⟩

/-- C9 counterexample: a payload with the required value field missing is not
rejected by the handler; it is appended to the sensor buffer as-is. -/
theorem ingest_missing_field_accepted :
    handle_sensor_message defaultSensors []
      (.obj ⟨some "s1", some "temperature", none, some "C", .iso 5, some false⟩) =
      [⟨some "s1", some "temperature", none, some "C", .iso 5, some false⟩] := rfl

/-- C9 amended: the handler performs no field validation and keeps no
rejection counter; every JSON-object payload is appended to the buffer
whatever fields it is missing, a malformed JSON message leaves the buffer
unchanged, and in both cases the outer exception handler returns normally,
so nothing propagates to the bus adapter. -/
theorem ingest_no_validation :
    (∀ (sensors : List (String × SensorCfg)) (buf : List Reading) (r : Reading),
        handle_sensor_message sensors buf (.obj r) = dequeAppend 1000 buf r) ∧
    (∀ (sensors : List (String × SensorCfg)) (buf : List Reading),
        handle_sensor_message sensors buf .invalidJson = buf) := by
  constructor
  · intro sensors buf r
    unfold handle_sensor_message handle_inner
    by_cases h : r.is_anomaly.getD false
    · cases hp : process_anomaly sensors r <;> simp [h, hp]
    · simp [h]
  · intro sensors buf
    rfl

/-- Summary congruence: for nonempty buffers the endpoint result is a function
of the readings retained by the one-hour filter alone. -/
theorem get_sensor_summary_congr {buf buf2 : List Reading} (now : ℚ)
    (h1 : buf ≠ []) (h2 : buf2 ≠ [])
    (hf : buf.filter (inWindow 3600 now) = buf2.filter (inWindow 3600 now)) :
    get_sensor_summary buf now = get_sensor_summary buf2 now := by
  unfold get_sensor_summary
  rw [if_neg h1, if_neg h2, hf]

/-- A reading the retention filter rejects can be removed from anywhere in a
buffer without changing the summary, as long as the rest stays nonempty. -/
theorem get_sensor_summary_drop {buf1 buf2 : List Reading} {r : Reading} (now : ℚ)
    (hp : inWindow 3600 now r = false) (hne : buf1 ++ buf2 ≠ []) :
    get_sensor_summary (buf1 ++ r :: buf2) now = get_sensor_summary (buf1 ++ buf2) now := by
  apply get_sensor_summary_congr now (by simp) hne
  rw [List.filter_append, List.filter_append, List.filter_cons_of_neg]
  simp [hp]

/-- Chat context congruence: the 30-minute context is a function of the
readings retained by its filter alone. -/
theorem get_sensor_context_congr {buf buf2 : List Reading} (ar : List String) (now : ℚ)
    (hf : buf.filter (inWindow 1800 now) = buf2.filter (inWindow 1800 now)) :
    get_sensor_context_for_llm buf ar now = get_sensor_context_for_llm buf2 ar now := by
  unfold get_sensor_context_for_llm
  rw [hf]

/-- C2: the one-hour summary is determined by the readings whose timestamp t
satisfies now - t <= 3600, and a reading older than one hour contributes to
none of count, mean, min, max or the anomaly count: removing it changes
nothing. -/
theorem summary_only_recent_contribute :
    (∀ (buf buf2 : List Reading) (now : ℚ), buf ≠ [] → buf2 ≠ [] →
        buf.filter (inWindow 3600 now) = buf2.filter (inWindow 3600 now) →
        get_sensor_summary buf now = get_sensor_summary buf2 now) ∧
    (∀ (buf1 buf2 : List Reading) (r : Reading) (now t : ℚ),
        parseTimestamp r.timestamp = some t → 3600 < now - t → buf1 ++ buf2 ≠ [] →
        get_sensor_summary (buf1 ++ r :: buf2) now = get_sensor_summary (buf1 ++ buf2) now) := by
  refine ⟨fun buf buf2 now h1 h2 hf => get_sensor_summary_congr now h1 h2 hf, ?_⟩
  intro buf1 buf2 r now t hp hold hne
  apply get_sensor_summary_drop now ?_ hne
  unfold inWindow
  rw [hp]
  simp only [decide_eq_false_iff_not]
  intro hle
  linarith

unseal Rat.add Rat.sub Rat.mul Rat.inv Rat.ofScientific in
/-- Witness for C2: a reading 4000 seconds old is dropped from the summary of
a buffer that also holds a fresh reading. -/
theorem summary_only_recent_contribute_witness :
    parseTimestamp (TsField.iso (-3000)) = some (-3000) ∧
    (3600:ℚ) < 1000 - (-3000) ∧
    ([] : List Reading) ++ [mkReading "temperature" 22] ≠ [] ∧
    get_sensor_summary
        ([] ++ (⟨some "s2", some "temperature", some 30, some "C",
            .iso (-3000), some false⟩ : Reading) :: [mkReading "temperature" 22]) 1000 =
      get_sensor_summary ([] ++ [mkReading "temperature" 22]) 1000 := by
  refine ⟨rfl, by norm_num, by simp, ?_⟩
  exact summary_only_recent_contribute.2 [] [mkReading "temperature" 22] _ 1000 (-3000)
    rfl (by norm_num) (by simp)

unseal Rat.add Rat.sub Rat.mul Rat.inv Rat.ofScientific in
/-- C3 counterexample: with an empty buffer, and with a buffer whose only
reading is an hour stale, the endpoint returns a message object, not a
Summary with count 0 and zeroed min and max. -/
theorem empty_window_counterexample :
    isWindowSummary (get_sensor_summary [] 0) = false ∧
    isWindowSummary (get_sensor_summary [mkReading "temperature" 22] 7200) = false :=
  ⟨rfl, rfl⟩

/-- Every entry produced by the update-or-insert satisfies P provided the
existing entries do and the update function always establishes P. -/
theorem applyAssoc_forall {β : Type} (P : β → Prop) :
    ∀ (m : List (String × β)) (ty : String) (f : β → β) (ini : β),
      (∀ p ∈ m, P p.2) → (∀ s, P (f s)) →
      ∀ p ∈ applyAssoc m ty f ini, P p.2
  | [], ty, f, ini, hm, hf => by
    intro p hp
    simp only [applyAssoc, List.mem_singleton] at hp
    subst hp
    exact hf ini
  | (k, s) :: rest, ty, f, ini, hm, hf => by
    intro p hp
    unfold applyAssoc at hp
    by_cases hk : k = ty
    · rw [if_pos hk] at hp
      rcases List.mem_cons.mp hp with h | h
      · subst h; exact hf s
      · exact hm p (List.mem_cons_of_mem _ h)
    · rw [if_neg hk] at hp
      rcases List.mem_cons.mp hp with h | h
      · subst h; exact hm _ (List.mem_cons_self _ _)
      · exact applyAssoc_forall P rest ty f ini
          (fun q hq => hm q (List.mem_cons_of_mem _ hq)) hf p h

/-- Invariant of the grouping loop: a property established by every addValue
application and holding of the accumulator holds of every produced entry. -/
theorem summarizeFold_entries (P : TypeSummary → Prop) (hP : ∀ s r, P (addValue s r)) :
    ∀ (recent : List Reading) (acc : List (String × TypeSummary) × ℕ),
      (∀ p ∈ acc.1, P p.2) →
      ∀ p ∈ (recent.foldl summarizeStep acc).1, P p.2
  | [], acc, hacc => by simpa using hacc
  | r :: rest, acc, hacc => by
    simp only [List.foldl_cons]
    apply summarizeFold_entries P hP rest (summarizeStep acc r)
    intro p hp
    unfold summarizeStep at hp
    exact applyAssoc_forall P acc.1 _ _ _ hacc (fun s => hP s r) p hp

/-- The averaging pass keeps count, min and max of every entry unchanged. -/
theorem finalizeAvg_mem {m : List (String × TypeSummary)} {p : String × TypeSummary}
    (hp : p ∈ finalizeAvg m) :
    ∃ q ∈ m, p.2.count = q.2.count ∧ p.2.min_value = q.2.min_value ∧
      p.2.max_value = q.2.max_value := by
  unfold finalizeAvg at hp
  rcases List.mem_map.mp hp with ⟨q, hq, rfl⟩
  refine ⟨q, hq, ?_⟩
  by_cases h : 0 < q.2.count <;> simp [h]

/-- C3 amended: a window with zero retained entries yields a distinguished
message result rather than a Summary, without raising, and every per-type
summary the endpoint does return has count at least 1 and a real (non
sentinel) min and max; no count-0 summary with zeroed extremes exists. -/
theorem empty_window_message_not_summary :
    (∀ now : ℚ, get_sensor_summary [] now = .noData) ∧
    (∀ (buf : List Reading) (now : ℚ) (m : List (String × TypeSummary)) (ac tr : ℕ),
        get_sensor_summary buf now = .summary m ac tr →
        ∀ p ∈ m, 1 ≤ p.2.count ∧ p.2.min_value.isSome = true ∧
          p.2.max_value.isSome = true) := by
  constructor
  · intro now; rfl
  · intro buf now m ac tr h p hp
    simp only [get_sensor_summary] at h
    split_ifs at h with h1 h2
    all_goals cases h
    obtain ⟨q, hq, hcnt, hmin, hmax⟩ := finalizeAvg_mem hp
    have hinv := summarizeFold_entries
      (fun s => 1 ≤ s.count ∧ s.min_value.isSome = true ∧ s.max_value.isSome = true)
      (fun s r => ⟨by simp only [addValue]; omega, by simp [addValue], by simp [addValue]⟩)
      (buf.filter (inWindow 3600 now)) ([], 0) (by simp) q hq
    rw [hcnt, hmin, hmax]
    exact hinv

unseal Rat.add Rat.sub Rat.mul Rat.inv Rat.ofScientific in
/-- Witness for C3 amended: a concrete one-reading buffer produces a summary
whose single entry has count 1 and real extremes. -/
theorem empty_window_message_not_summary_witness :
    get_sensor_summary [mkReading "temperature" 22] 5 =
      .summary [("temperature", ⟨1, 22, some 22, some 22, ""⟩)] 0 1 ∧
    (1 ≤ (1:ℕ) ∧ (some (22:ℚ)).isSome = true ∧ (some (22:ℚ)).isSome = true) := by
  refine ⟨by rfl, ?_⟩
  exact empty_window_message_not_summary.2 [mkReading "temperature" 22] 5
    [("temperature", ⟨1, 22, some 22, some 22, ""⟩)] 0 1 (by rfl)
    ("temperature", ⟨1, 22, some 22, some 22, ""⟩) (by simp)

/-- C10: a buffered reading whose timestamp is not an ISO-8601 string (for
example the integer milliseconds produced by generate_reading) stays in the
bounded buffer after the capacity-limited append, yet is excluded from the
one-hour summary (count, mean, min, max and anomaly count alike) and from the
30-minute chat context. -/
theorem unparseable_timestamps_excluded :
    ∀ (buf1 buf2 : List Reading) (r : Reading) (ar : List String) (now : ℚ),
      parseTimestamp r.timestamp = none →
      (r ∈ dequeAppend 1000 (buf1 ++ buf2) r) ∧
      (buf1 ++ buf2 ≠ [] →
        get_sensor_summary (buf1 ++ r :: buf2) now = get_sensor_summary (buf1 ++ buf2) now) ∧
      (get_sensor_context_for_llm (buf1 ++ r :: buf2) ar now =
        get_sensor_context_for_llm (buf1 ++ buf2) ar now) := by
  intro buf1 buf2 r ar now hp
  have hw36 : inWindow 3600 now r = false := by unfold inWindow; rw [hp]
  have hw18 : inWindow 1800 now r = false := by unfold inWindow; rw [hp]
  refine ⟨?_, fun hne => get_sensor_summary_drop now hw36 hne, ?_⟩
  · unfold dequeAppend
    have hk : (buf1 ++ buf2 ++ [r]).length - 1000 ≤ (buf1 ++ buf2).length := by
      simp only [List.length_append, List.length_singleton]
      omega
    rw [List.drop_append_of_le_length hk]
    simp
  · apply get_sensor_context_congr ar now
    rw [List.filter_append, List.filter_append, List.filter_cons_of_neg]
    simp [hw18]

unseal Rat.add Rat.sub Rat.mul Rat.inv Rat.ofScientific in
/-- Witness for C10: a reading stamped by generate_reading with integer
milliseconds is kept in the buffer and invisible to both summaries. -/
theorem unparseable_timestamps_excluded_witness :
    parseTimestamp (generate_reading_timestamp 1760000000000000000) = none ∧
    ((⟨some "g1", some "temperature", some 30, some "C",
        generate_reading_timestamp 1760000000000000000, some true⟩ : Reading) ∈
      dequeAppend 1000 ([] ++ [mkReading "temperature" 22])
        ⟨some "g1", some "temperature", some 30, some "C",
          generate_reading_timestamp 1760000000000000000, some true⟩) ∧
    get_sensor_summary
        ([] ++ (⟨some "g1", some "temperature", some 30, some "C",
            generate_reading_timestamp 1760000000000000000, some true⟩ : Reading) ::
          [mkReading "temperature" 22]) 100 =
      get_sensor_summary ([] ++ [mkReading "temperature" 22]) 100 := by
  have h := unparseable_timestamps_excluded [] [mkReading "temperature" 22]
    ⟨some "g1", some "temperature", some 30, some "C",
      generate_reading_timestamp 1760000000000000000, some true⟩ [] 100 rfl
  exact ⟨rfl, h.1, h.2.1 (by simp)⟩

unseal Rat.add Rat.sub Rat.mul Rat.inv Rat.ofScientific in
/-- C5 counterexample: with one buffered reading and no intervening append,
two context snapshots taken at clock readings 0 and 1 differ, because the
snapshot embeds the current time. -/
theorem context_time_counterexample :
    get_recent_sensor_context [mkReading "temperature" 22] 0 ≠
      get_recent_sensor_context [mkReading "temperature" 22] 1 := by decide

/-- C5 amended: with no intervening append, two inference-engine snapshots
agree on everything except the embedded clock reading, and two chat-side
snapshots are value-equal whenever no buffered reading moves across the
30-minute boundary between the two call instants. -/
theorem context_snapshot_determinism :
    (∀ (buf : List Reading) (n1 n2 : ℚ),
        stripTimestamp (get_recent_sensor_context buf n1) =
          stripTimestamp (get_recent_sensor_context buf n2)) ∧
    (∀ (buf : List Reading) (ar : List String) (n1 n2 : ℚ),
        (∀ r ∈ buf, inWindow 1800 n1 r = inWindow 1800 n2 r) →
        get_sensor_context_for_llm buf ar n1 = get_sensor_context_for_llm buf ar n2) := by
  constructor
  · intro buf n1 n2
    unfold get_recent_sensor_context
    by_cases h : buf = []
    · rw [if_pos h, if_pos h]
    · rw [if_neg h, if_neg h]; rfl
  · intro buf ar n1 n2 h
    unfold get_sensor_context_for_llm
    rw [List.filter_congr h]

unseal Rat.add Rat.sub Rat.mul Rat.inv Rat.ofScientific in
/-- Witness for C5 amended: a fresh reading stays inside the 30-minute window
at both instants, so the chat snapshots at times 200 and 300 coincide. -/
theorem context_snapshot_determinism_witness :
    (∀ r ∈ [mkReading "temperature" 22],
        inWindow 1800 (200:ℚ) r = inWindow 1800 (300:ℚ) r) ∧
    get_sensor_context_for_llm [mkReading "temperature" 22] [] 200 =
      get_sensor_context_for_llm [mkReading "temperature" 22] [] 300 := by
  have h : ∀ r ∈ [mkReading "temperature" 22],
      inWindow 1800 (200:ℚ) r = inWindow 1800 (300:ℚ) r := by
    intro r hr
    rw [List.mem_singleton] at hr
    subst hr
    decide
  exact ⟨h, context_snapshot_determinism.2 _ [] 200 300 h⟩

unseal Rat.add Rat.sub Rat.mul Rat.inv Rat.ofScientific in
/-- C1 counterexample: at thresholds min 20 and max 80 an in-range value of 80
makes the classifier return the string "info", not "normal": the low tier does
not carry the name the claim gives it. -/
theorem severity_tier_name_counterexample :
    calculate_severity defaultSensors (mkReading "temperature" 80) = .ok "info" ∧
    ("info" : String) ≠ "normal" := ⟨by rfl, by decide⟩

/-- C1 amended: against thresholds min 20 and max 80 the classifier implements
exactly the claimed tiering - in-range values and deviation ratios of at most
0.2 yield the low tier, ratios in (0.2, 0.5] yield warning, ratios above 0.5
yield critical, below-range values use (min - value)/min with the same
cutoffs, and the result is always one of the three tiers - except that the
low tier is the string "info" where the claim says "normal". -/
theorem severity_tiers_amended (value : ℚ) :
    calculate_severity defaultSensors (mkReading "temperature" value) =
      .ok (claimedSeverity 20 80 value) := by
  have hlook : defaultSensors.lookup "temperature" = some ⟨some 20, some 80⟩ := by rfl
  simp only [calculate_severity, mkReading, claimedSeverity, severityOfDeviation, hlook,
    Option.getD_some]
  by_cases h80 : value > 80
  · have hnin : ¬(20 ≤ value ∧ value ≤ 80) := fun hc => absurd hc.2 (by linarith)
    rw [if_pos h80, if_neg (by norm_num : ¬(80:ℚ) = 0), if_neg hnin, if_pos h80]
    by_cases hc : (value - 80) / 80 > 0.5
    · rw [if_pos hc, if_pos hc]
    · rw [if_neg hc, if_neg hc]
      by_cases hw : (value - 80) / 80 > 0.2
      · rw [if_pos hw, if_pos (⟨hw, by linarith⟩ : 0.2 < (value - 80) / 80 ∧
          (value - 80) / 80 ≤ 0.5)]
      · rw [if_neg hw, if_neg (fun hc2 => hw hc2.1)]
  · by_cases h20 : value < 20
    · have hnin : ¬(20 ≤ value ∧ value ≤ 80) := fun hc => absurd hc.1 (not_le.mpr h20)
      rw [if_neg h80, if_pos h20, if_neg (by norm_num : ¬(20:ℚ) = 0), if_neg hnin,
        if_neg h80]
      by_cases hc : (20 - value) / 20 > 0.5
      · rw [if_pos hc, if_pos hc]
      · rw [if_neg hc, if_neg hc]
        by_cases hw : (20 - value) / 20 > 0.2
        · rw [if_pos hw, if_pos (⟨hw, by linarith⟩ : 0.2 < (20 - value) / 20 ∧
            (20 - value) / 20 ≤ 0.5)]
        · rw [if_neg hw, if_neg (fun hc2 => hw hc2.1)]
    · rw [if_neg h80, if_neg h20, if_pos (⟨by linarith, by linarith⟩ :
        20 ≤ value ∧ value ≤ 80)]
      rw [if_neg (by norm_num : ¬(0:ℚ) > 0.5), if_neg (by norm_num : ¬(0:ℚ) > 0.2)]

unseal Rat.add Rat.sub Rat.mul Rat.inv Rat.ofScientific in
/-- C7 counterexample: an unconfigured sensor type falls back to the range 0
to 100, under which value 200 is classified critical, so the default range is
not one that never classifies above the low tier; no configuration-gap log
exists in the classifier either. -/
theorem default_thresholds_counterexample :
    List.lookup "humidity" ([] : List (String × SensorCfg)) = none ∧
    calculate_severity [] (mkReading "humidity" 200) = .ok "critical" := ⟨rfl, by rfl⟩

/-- C7 amended: a sensor type with no configured thresholds silently defaults
to the range 0 to 100 (no logging of the gap exists); for nonnegative values
the classifier then reports critical above 150, warning above 120 and the low
tier otherwise, so values can very well be classified above the low tier. -/
theorem default_thresholds_amended (sensors : List (String × SensorCfg)) (ty : String)
    (value : ℚ) (hlook : sensors.lookup ty = none) (h0 : 0 ≤ value) :
    calculate_severity sensors (mkReading ty value) =
      .ok (if value > 150 then "critical" else if value > 120 then "warning" else "info") := by
  simp only [calculate_severity, mkReading, severityOfDeviation, hlook, Option.getD_none,
    Option.getD_some]
  by_cases h100 : value > 100
  · rw [if_pos h100, if_neg (by norm_num : ¬(100:ℚ) = 0)]
    have hc : ((value - 100) / 100 > 0.5) ↔ value > 150 := by
      rw [gt_iff_lt, lt_div_iff₀ (by norm_num : (0:ℚ) < 100)]
      constructor <;> intro <;> linarith
    have hw : ((value - 100) / 100 > 0.2) ↔ value > 120 := by
      rw [gt_iff_lt, lt_div_iff₀ (by norm_num : (0:ℚ) < 100)]
      constructor <;> intro <;> linarith
    by_cases h150 : value > 150
    · rw [if_pos (hc.mpr h150), if_pos h150]
    · rw [if_neg (fun hh => h150 (hc.mp hh)), if_neg h150]
      by_cases h120 : value > 120
      · rw [if_pos (hw.mpr h120), if_pos h120]
      · rw [if_neg (fun hh => h120 (hw.mp hh)), if_neg h120]
  · rw [if_neg h100, if_neg (not_lt.mpr h0)]
    rw [if_neg (by norm_num : ¬(0:ℚ) > 0.5), if_neg (by norm_num : ¬(0:ℚ) > 0.2),
      if_neg (by linarith : ¬value > 150), if_neg (by linarith : ¬value > 120)]

/-- Witness for C7 amended: the unconfigured type humidity at value 200 is
classified critical under the default range. -/
theorem default_thresholds_amended_witness :
    List.lookup "humidity" ([] : List (String × SensorCfg)) = none ∧ (0:ℚ) ≤ 200 ∧
    calculate_severity [] (mkReading "humidity" 200) = .ok "critical" := by
  refine ⟨rfl, by norm_num, ?_⟩
  have h := default_thresholds_amended [] "humidity" 200 rfl (by norm_num)
  rw [h]
  norm_num

unseal Rat.add Rat.sub Rat.mul Rat.inv Rat.ofScientific in
/-- C8 counterexample: with the default configuration, classifying a vibration
reading of value -1 divides by the configured minimum 0 and raises
ZeroDivisionError instead of returning a tier. -/
theorem severity_zero_division_counterexample :
    calculate_severity defaultSensors (mkReading "vibration" (-1)) =
      .error .zeroDivision := by rfl

/-- C8 amended: classification returns one of the three tiers, and in
particular the deviation-ratio divisions are defined, whenever the threshold
that would be divided by is nonzero: the max threshold for above-range values
and the min threshold for below-range values. With a zero minimum (as for the
default vibration range) and a negative value the division is undefined and
the call raises; the blanket handler of handle_sensor_message catches it, so
the process survives, but the classify call itself does not return a tier. -/
theorem severity_total_amended (sensors : List (String × SensorCfg)) (r : Reading)
    (v : ℚ) (ty : String) (hv : r.value = some v) (ht : r.type = some ty)
    (hmax : v > thresholdMax sensors ty → thresholdMax sensors ty ≠ 0)
    (hmin : v < thresholdMin sensors ty → thresholdMin sensors ty ≠ 0) :
    ∃ s, calculate_severity sensors r = .ok s ∧
      (s = "info" ∨ s = "warning" ∨ s = "critical") := by
  unfold thresholdMax at hmax
  unfold thresholdMin at hmin
  simp only [calculate_severity, hv, ht, severityOfDeviation]
  by_cases h1 : v > (((sensors.lookup ty).getD ⟨none, none⟩).max).getD 100
  · rw [if_pos h1, if_neg (hmax h1)]
    split_ifs <;> exact ⟨_, rfl, by simp⟩
  · rw [if_neg h1]
    by_cases h2 : v < (((sensors.lookup ty).getD ⟨none, none⟩).min).getD 0
    · rw [if_pos h2, if_neg (hmin h2)]
      split_ifs <;> exact ⟨_, rfl, by simp⟩
    · rw [if_neg h2]
      split_ifs <;> exact ⟨_, rfl, by simp⟩

/-- Witness for C8 amended: a temperature reading of 50 against the default
thresholds (min 20, max 80, both relevant divisors nonzero) classifies to a
tier. -/
theorem severity_total_amended_witness :
    (mkReading "temperature" 50).value = some 50 ∧
    (mkReading "temperature" 50).type = some "temperature" ∧
    ((50:ℚ) > thresholdMax defaultSensors "temperature" →
      thresholdMax defaultSensors "temperature" ≠ 0) ∧
    ((50:ℚ) < thresholdMin defaultSensors "temperature" →
      thresholdMin defaultSensors "temperature" ≠ 0) ∧
    ∃ s, calculate_severity defaultSensors (mkReading "temperature" 50) = .ok s ∧
      (s = "info" ∨ s = "warning" ∨ s = "critical") := by
  have hmax : (50:ℚ) > thresholdMax defaultSensors "temperature" →
      thresholdMax defaultSensors "temperature" ≠ 0 := by
    intro h
    norm_num [thresholdMax, defaultSensors, List.lookup]
  have hmin : (50:ℚ) < thresholdMin defaultSensors "temperature" →
      thresholdMin defaultSensors "temperature" ≠ 0 := by
    intro h
    norm_num [thresholdMin, defaultSensors, List.lookup]
  refine ⟨rfl, rfl, hmax, hmin, ?_⟩
  exact severity_total_amended defaultSensors _ 50 "temperature" rfl rfl hmax hmin
